import Mathlib

/-!
Verification of the query-result cache with dependency-aware invalidation
of the mcp-bigquery-server repository.

The embedding models `src/mcp_bigquery/core/supabase_client.py`
(`SupabaseKnowledgeBase`: `_generate_query_hash`, `get_cached_query`,
`cache_query_result`, `invalidate_cache_for_table`, `track_schema_change`,
`save_query_pattern`) and `src/mcp_bigquery/handlers/tools.py`
(`extract_table_references`, `query_tool_handler`).

The Supabase backing store is modelled as an explicit `Store` state holding
the four logical tables; each operation is a pure function from a store (and
the current time, a `Nat`) to a result paired with the updated store.
Backend failures (the `except Exception` paths in the source) are modelled by
an optional injected failure index `failAt`: the n-th backend call of the
operation raises, the surrounding `try` catches it, and the operation returns
its fallback value.
-/

set_option maxRecDepth 100000

namespace MCPBigQuery

/-! ## SHA-256 over byte lists (the hash used by `_generate_query_hash`) -/

/-- Truncate to a 32-bit word. -/
def w32 (n : Nat) : Nat := n % 4294967296

/-- Right-rotation of a 32-bit word by `k` bits. -/
def rotr (k x : Nat) : Nat := w32 (x / 2 ^ k + x % 2 ^ k * 2 ^ (32 - k))

def shaCh (x y z : Nat) : Nat := (x &&& y) ^^^ ((4294967295 ^^^ x) &&& z)

def shaMaj (x y z : Nat) : Nat := (x &&& y) ^^^ (x &&& z) ^^^ (y &&& z)

def bigSigma0 (x : Nat) : Nat := rotr 2 x ^^^ rotr 13 x ^^^ rotr 22 x

def bigSigma1 (x : Nat) : Nat := rotr 6 x ^^^ rotr 11 x ^^^ rotr 25 x

def smallSigma0 (x : Nat) : Nat := rotr 7 x ^^^ rotr 18 x ^^^ x / 2 ^ 3

def smallSigma1 (x : Nat) : Nat := rotr 17 x ^^^ rotr 19 x ^^^ x / 2 ^ 10

/-- The 64 SHA-256 round constants (the first 32 fractional bits of the cube
roots of the first 64 primes), as decimal word values. -/
def K256 : List Nat :=
  [1116352408, 1899447441, 3049323471, 3921009573, 961987163, 1508970993,
   2453635748, 2870763221, 3624381080, 310598401, 607225278, 1426881987,
   1925078388, 2162078206, 2614888103, 3248222580, 3835390401, 4022224774,
   264347078, 604807628, 770255983, 1249150122, 1555081692, 1996064986,
   2554220882, 2821834349, 2952996808, 3210313671, 3336571891, 3584528711,
   113926993, 338241895, 666307205, 773529912, 1294757372, 1396182291,
   1695183700, 1986661051, 2177026350, 2456956037, 2730485921, 2820302411,
   3259730800, 3345764771, 3516065817, 3600352804, 4094571909, 275423344,
   430227734, 506948616, 659060556, 883997877, 958139571, 1322822218,
   1537002063, 1747873779, 1955562222, 2024104815, 2227730452, 2361852424,
   2428436474, 2756734187, 3204031479, 3329325298]

/-- Working state of the compression function. -/
structure H8 where
  a : Nat
  b : Nat
  c : Nat
  d : Nat
  e : Nat
  f : Nat
  g : Nat
  h : Nat
deriving Repr, DecidableEq

/-- SHA-256 initial hash value (the first 32 fractional bits of the square
roots of the first eight primes), as decimal word values. -/
def initH : H8 :=
  ⟨1779033703, 3144134277, 1013904242, 2773480762,
   1359893119, 2600822924, 528734635, 1541459225⟩

/-- Big-endian 8-byte encoding of a length (in bits). -/
def lengthBytes (n : Nat) : List Nat :=
  [n / 2 ^ 56 % 256, n / 2 ^ 48 % 256, n / 2 ^ 40 % 256, n / 2 ^ 32 % 256,
   n / 2 ^ 24 % 256, n / 2 ^ 16 % 256, n / 2 ^ 8 % 256, n % 256]

/-- SHA-256 padding: append 0x80, zeros, and the 64-bit bit length. -/
def padMessage (msg : List Nat) : List Nat :=
  let len := msg.length
  let zeros := (64 - (len + 9) % 64) % 64
  msg ++ [128] ++ List.replicate zeros 0 ++ lengthBytes (len * 8)

/-- Split a byte list into 64-byte blocks (structural fuel recursion: every
step drops 64 elements from a non-empty list, so fuel `l.length` suffices). -/
def toBlocksAux : Nat → List Nat → List (List Nat)
  | 0, _ => []
  | _ + 1, [] => []
  | fuel + 1, b :: rest => (b :: rest).take 64 :: toBlocksAux fuel ((b :: rest).drop 64)

/-- Split a byte list into 64-byte blocks. -/
def toBlocks (l : List Nat) : List (List Nat) := toBlocksAux l.length l

/-- Parse big-endian 32-bit words out of a byte list. -/
def toWords : List Nat → List Nat
  | b0 :: b1 :: b2 :: b3 :: rest =>
      (b0 * 16777216 + b1 * 65536 + b2 * 256 + b3) :: toWords rest
  | _ => []

/-- Extend the 16 block words to the 64-entry message schedule. -/
def msgSchedule (ws : List Nat) : Array Nat :=
  (List.range 48).foldl
    (fun arr i =>
      let j := i + 16
      arr.push (w32 (arr.getD (j - 16) 0 + smallSigma0 (arr.getD (j - 15) 0) +
        arr.getD (j - 7) 0 + smallSigma1 (arr.getD (j - 2) 0))))
    ws.toArray

/-- One 512-bit block of the SHA-256 compression function. -/
def compressBlock (st : H8) (block : List Nat) : H8 :=
  let w := msgSchedule (toWords block)
  let fin := (List.range 64).foldl
    (fun s i =>
      let t1 := w32 (s.h + bigSigma1 s.e + shaCh s.e s.f s.g + K256.getD i 0 + w.getD i 0)
      let t2 := w32 (bigSigma0 s.a + shaMaj s.a s.b s.c)
      ⟨w32 (t1 + t2), s.a, s.b, s.c, w32 (s.d + t1), s.e, s.f, s.g⟩)
    st
  ⟨w32 (st.a + fin.a), w32 (st.b + fin.b), w32 (st.c + fin.c), w32 (st.d + fin.d),
   w32 (st.e + fin.e), w32 (st.f + fin.f), w32 (st.g + fin.g), w32 (st.h + fin.h)⟩

def hexChar (n : Nat) : Char :=
  if n < 10 then Char.ofNat (48 + n) else Char.ofNat (87 + n)

/-- Lower-case fixed-width hex rendering of a 32-bit word: always 8 chars. -/
def wordHex (x : Nat) : List Char :=
  [hexChar (x / 2 ^ 28 % 16), hexChar (x / 2 ^ 24 % 16), hexChar (x / 2 ^ 20 % 16),
   hexChar (x / 2 ^ 16 % 16), hexChar (x / 2 ^ 12 % 16), hexChar (x / 2 ^ 8 % 16),
   hexChar (x / 2 ^ 4 % 16), hexChar (x % 16)]

/-- SHA-256 hex digest of a byte list (as `hashlib.sha256(...).hexdigest()`). -/
def sha256hex (msg : List Nat) : String :=
  let st := (toBlocks (padMessage msg)).foldl compressBlock initH
  String.mk (wordHex st.a ++ wordHex st.b ++ wordHex st.c ++ wordHex st.d ++
    wordHex st.e ++ wordHex st.f ++ wordHex st.g ++ wordHex st.h)

/-! ## UTF-8 encoding and Python string helpers -/

/-- UTF-8 bytes of a single character (Python `str.encode()`). -/
def utf8Bytes (c : Char) : List Nat :=
  let n := c.toNat
  if n < 128 then [n]
  else if n < 2048 then [192 + n / 64, 128 + n % 64]
  else if n < 65536 then [224 + n / 4096, 128 + n / 64 % 64, 128 + n % 64]
  else [240 + n / 262144, 128 + n / 4096 % 64, 128 + n / 64 % 64, 128 + n % 64]

/-- UTF-8 bytes of a string. -/
def strBytes (s : String) : List Nat := (s.data.map utf8Bytes).flatten

/-- Whitespace characters stripped by Python `str.strip()` (ASCII range). -/
def isPySpace (c : Char) : Bool :=
  c = ' ' || c = '\t' || c = '\n' || c = '\r' || c = Char.ofNat 11 || c = Char.ofNat 12

/-- Python `str.strip()`: drop leading and trailing whitespace. -/
def pyStrip (s : String) : String :=
  String.mk (((s.data.dropWhile isPySpace).reverse.dropWhile isPySpace).reverse)

/-- Python `str.lower()` (ASCII letters; the queries at issue are ASCII SQL). -/
def pyLower (s : String) : String := String.mk (s.data.map Char.toLower)

/-- Python `str.upper()` (ASCII letters). -/
def pyUpper (s : String) : String := String.mk (s.data.map Char.toUpper)

/-- Split a character list at every separator (keeping empty pieces), with an
accumulator for the current piece. -/
def splitEveryAux (sep : Char → Bool) : List Char → List Char → List String
  | [], acc => [String.mk acc.reverse]
  | c :: cs, acc =>
    if sep c then String.mk acc.reverse :: splitEveryAux sep cs []
    else splitEveryAux sep cs (c :: acc)

/-- Python `str.split()` with no argument: split on whitespace runs, no empties. -/
def pySplitWs (s : String) : List String :=
  (splitEveryAux isPySpace s.data []).filter (fun piece => piece ≠ "")

/-- Python `str.split(".")`: split at every dot, keeping empty pieces. -/
def pySplitDot (s : String) : List String := splitEveryAux (fun c => c = '.') s.data []

/-- JSON string rendering of a scalar value (values are carried opaquely). -/
def jsonStr (s : String) : String := "\"" ++ s ++ "\""

/-- Sorted-insert for key-value pairs by key (ascending), for `sort_keys=True`. -/
def insertByKey (kv : String × String) : List (String × String) → List (String × String)
  | [] => [kv]
  | x :: xs => if kv.1 < x.1 then kv :: x :: xs else x :: insertByKey kv xs

/-- Sort an association list by key, as `json.dumps(..., sort_keys=True)` does. -/
def sortByKey (l : List (String × String)) : List (String × String) :=
  l.foldr insertByKey []

/-- Python `json.dumps(params, sort_keys=True)` for a string-valued mapping. -/
def jsonDumpsSorted (params : List (String × String)) : String :=
  "\x7b" ++ String.intercalate ", "
    ((sortByKey params).map (fun kv => jsonStr kv.1 ++ ": " ++ jsonStr kv.2)) ++ "\x7d"

/-! ## Fingerprinter: `SupabaseKnowledgeBase._generate_query_hash` -/

/--
`_generate_query_hash(sql, params)`: normalize by `strip().lower()`, append the
key-sorted JSON serialization of `params` when `params` is truthy (Python: both
`None` and the empty dict are falsy), and return the SHA-256 hex digest of the
UTF-8 encoding.
-/
def generate_query_hash (sql : String) (params : Option (List (String × String))) : String :=
  let query_string := pyLower (pyStrip sql)
  let query_string :=
    match params with
    | none => query_string
    | some ps => if ps = [] then query_string else query_string ++ jsonDumpsSorted ps
  sha256hex (strBytes query_string)

/-! ## The backing store state (the four Supabase tables used by the cache) -/

/-- A result row: a record mapping column names to (opaquely carried) values. -/
abbrev ResRow := List (String × String)

/-- `result_data`: the ordered sequence of result rows of a query. -/
abbrev ResultData := List ResRow

/-- Execution metadata: a string-keyed mapping with opaquely carried values. -/
abbrev Metadata := List (String × String)

/-- Python `dict.get(key)`: `none` when the key is absent. -/
def metaGet (m : Metadata) (k : String) : Option String :=
  (m.find? (fun kv => kv.1 = k)).map (fun kv => kv.2)

/-- A row of the `query_cache` table. -/
structure CacheRow where
  id : Nat
  query_hash : String
  sql_query : String
  result_data : ResultData
  metadata : Metadata
  created_at : Nat
  expires_at : Nat
  hit_count : Nat
deriving Repr, DecidableEq

/-- A row of the `table_dependencies` table. `project_id` may be NULL when the
table path had two parts and the metadata carries no `project_id` key. -/
structure DepRow where
  query_cache_id : Nat
  project_id : Option String
  dataset_id : String
  table_id : String
deriving Repr, DecidableEq

/-- A row of the `schema_snapshots` table. -/
structure SchemaRow where
  project_id : String
  dataset_id : String
  table_id : String
  schema_version : Nat
  schema_data : List Metadata
  row_count : Option String
  size_bytes : Option String
deriving Repr, DecidableEq

/-- A row of the `query_history` table. -/
structure HistoryRow where
  user_id : Option String
  sql_query : String
  execution_time_ms : Option String
  bytes_processed : Option String
  success : Bool
  error_message : Option String
  tables_accessed : List String
deriving Repr, DecidableEq

/-- The backing store: the four logical tables plus the id sequence for
`query_cache` (rows are listed in insertion order, as the database returns
them for an unordered select). -/
structure Store where
  query_cache : List CacheRow
  table_dependencies : List DepRow
  schema_snapshots : List SchemaRow
  query_history : List HistoryRow
  next_id : Nat
deriving Repr, DecidableEq

/-- Well-formedness: every stored id is below the id sequence, so a freshly
inserted row's id collides with no existing row or dependency. -/
def Store.WF (s : Store) : Prop :=
  (∀ r ∈ s.query_cache, r.id < s.next_id) ∧
  (∀ d ∈ s.table_dependencies, d.query_cache_id < s.next_id)

instance (s : Store) : Decidable s.WF := by
  unfold Store.WF
  infer_instance

/-- The rows the select in `get_cached_query` returns: matching fingerprint and
`expires_at >= now` (the `gte` filter), in store order. -/
def cacheMatches (cache : List CacheRow) (now : Nat) (hash : String) : List CacheRow :=
  cache.filter (fun r => decide (r.query_hash = hash ∧ now ≤ r.expires_at))

/-- The shape of the dictionary `get_cached_query` returns on a hit. -/
structure CachedResult where
  cached : Bool
  result : ResultData
  metadata : Metadata
  cached_at : Nat
deriving Repr, DecidableEq

/--
`get_cached_query(sql)`: hash the query, select the unexpired rows with that
hash, and on a hit bump the first row's hit counter (read value plus one) and
return its payload. Backend call 0 is the select, call 1 the hit-count update;
an injected failure at either call is caught and yields `none` with the store
unchanged (the `except` path of the source).
-/
def get_cached_query (failAt : Option Nat) (store : Store) (now : Nat) (sql : String) :
    Option CachedResult × Store :=
  let query_hash := generate_query_hash sql none
  if failAt = some 0 then (none, store)
  else
    match cacheMatches store.query_cache now query_hash with
    | [] => (none, store)
    | first :: _ =>
      if failAt = some 1 then (none, store)
      else
        let updated := store.query_cache.map (fun r =>
          if decide (r.id = first.id) then { r with hit_count := first.hit_count + 1 } else r)
        (some { cached := true, result := first.result_data, metadata := first.metadata,
                cached_at := first.created_at },
         { store with query_cache := updated })

/-- The dependency rows `cache_query_result` builds for a new cache entry:
one per element of `tables_accessed` that splits into at least two dot-parts
(`parts[0]` as project when there are exactly three parts, else the metadata's
`project_id`; `parts[-2]` as dataset; `parts[-1]` as table). -/
def depsFor (cache_id : Nat) (metadata : Metadata) (tables_accessed : List String) :
    List DepRow :=
  tables_accessed.filterMap (fun table_path =>
    let parts := pySplitDot table_path
    if 2 ≤ parts.length then
      some { query_cache_id := cache_id,
             project_id := if parts.length = 3 then parts.head? else metaGet metadata "project_id",
             dataset_id := parts.getD (parts.length - 2) "",
             table_id := parts.getLastD "" }
    else none)

/--
`cache_query_result(sql, result_data, metadata, tables_accessed, ttl_hours)`:
insert a `query_cache` row with `expires_at = now + ttl` and a fresh id, then
insert one `table_dependencies` row per qualifying table reference, and return
`true`. Backend call 0 is the cache insert, call 1 the dependency insert (only
issued when the dependency list is non-empty); an injected failure is caught
and returns `false` (after call 0 the cache row is already written: the
partial-failure case of the source).
-/
def cache_query_result (failAt : Option Nat) (store : Store) (now : Nat) (sql : String)
    (result_data : ResultData) (metadata : Metadata) (tables_accessed : List String)
    (ttl_hours : Nat) : Bool × Store :=
  let query_hash := generate_query_hash sql none
  let expires_at := now + ttl_hours
  if failAt = some 0 then (false, store)
  else
    let cache_id := store.next_id
    let row : CacheRow :=
      { id := cache_id, query_hash := query_hash, sql_query := sql,
        result_data := result_data, metadata := metadata,
        created_at := now, expires_at := expires_at, hit_count := 0 }
    let store1 := { store with query_cache := store.query_cache ++ [row],
                               next_id := cache_id + 1 }
    let dependencies := depsFor cache_id metadata tables_accessed
    if dependencies = [] then (true, store1)
    else if failAt = some 1 then (false, store1)
    else (true, { store1 with
                    table_dependencies := store1.table_dependencies ++ dependencies })

/-- Whether a dependency row matches the `(project, dataset, table)` triple the
invalidator filters on (a NULL `project_id` matches no `eq` filter). -/
def depMatches (p d t : String) (dep : DepRow) : Bool :=
  decide (dep.project_id = some p ∧ dep.dataset_id = d ∧ dep.table_id = t)

/--
`invalidate_cache_for_table(project_id, dataset_id, table_id)`: select the
dependency rows matching the triple; when there are any, set `expires_at` of
every cache row whose id occurs among their `query_cache_id`s to `now`.
Backend call 0 is the select, call 1 the update; an injected failure is caught
and the store is returned unchanged. The function returns no value.
-/
def invalidate_cache_for_table (failAt : Option Nat) (store : Store) (now : Nat)
    (project_id dataset_id table_id : String) : Store :=
  if failAt = some 0 then store
  else
    let deps := store.table_dependencies.filter (depMatches project_id dataset_id table_id)
    if deps = [] then store
    else if failAt = some 1 then store
    else
      let cache_ids := deps.map (fun dep => dep.query_cache_id)
      { store with query_cache := store.query_cache.map (fun r =>
          if decide (r.id ∈ cache_ids) then { r with expires_at := now } else r) }

/-- Descending insertion used to model the `order("schema_version", desc=True)`
clause of the version select. -/
def insertDesc (v : Nat) : List Nat → List Nat
  | [] => [v]
  | x :: xs => if x ≤ v then v :: x :: xs else x :: insertDesc v xs

/-- Sort a list of versions in descending order. -/
def sortDesc (l : List Nat) : List Nat := l.foldr insertDesc []

/-- The `schema_version`s currently stored for a table triple. -/
def versionsFor (store : Store) (p d t : String) : List Nat :=
  (store.schema_snapshots.filter (fun s =>
    decide (s.project_id = p ∧ s.dataset_id = d ∧ s.table_id = t))).map
    (fun s => s.schema_version)

/--
`track_schema_change(project_id, dataset_id, table_id, new_schema, metadata)`:
select the highest stored version for the triple (order descending, first row;
`next_version = 1` when there is none, else that version plus one), insert a
snapshot at `next_version`, then call `invalidate_cache_for_table` for the
triple and return `true`. Backend call 0 is the version select, call 1 the
snapshot insert; calls 2 and 3 are the invalidator's two calls (whose failures
the invalidator itself swallows, so the function still returns `true`).
-/
def track_schema_change (failAt : Option Nat) (store : Store) (now : Nat)
    (project_id dataset_id table_id : String) (new_schema : List Metadata)
    (metadata : Metadata) : Bool × Store :=
  if failAt = some 0 then (false, store)
  else
    let next_version :=
      match sortDesc (versionsFor store project_id dataset_id table_id) with
      | [] => 1
      | v :: _ => v + 1
    if failAt = some 1 then (false, store)
    else
      let snap : SchemaRow :=
        { project_id := project_id, dataset_id := dataset_id, table_id := table_id,
          schema_version := next_version, schema_data := new_schema,
          row_count := metaGet metadata "num_rows",
          size_bytes := metaGet metadata "num_bytes" }
      let store1 := { store with schema_snapshots := store.schema_snapshots ++ [snap] }
      let innerFail := failAt.bind (fun n => if 2 ≤ n then some (n - 2) else none)
      (true, invalidate_cache_for_table innerFail store1 now project_id dataset_id table_id)

/-- `save_query_pattern(sql, execution_stats, tables_accessed, success,
error_message, user_id)`: append a `query_history` row; a backend failure is
caught and ignored. -/
def save_query_pattern (failAt : Option Nat) (store : Store) (sql : String)
    (execution_stats : Metadata) (tables_accessed : List String) (success : Bool)
    (error_message : Option String) (user_id : Option String) : Store :=
  if failAt = some 0 then store
  else
    { store with query_history := store.query_history ++
        [{ user_id := user_id, sql_query := sql,
           execution_time_ms := metaGet execution_stats "duration_ms",
           bytes_processed := metaGet execution_stats "total_bytes_processed",
           success := success, error_message := error_message,
           tables_accessed := tables_accessed }] }

/-! ## `extract_table_references` (handlers/tools.py)

A lexical scan equivalent to
`re.findall(r'FROM\s+`...`?([a-zA-Z0-9_.-]+)`...`?|JOIN\s+...', sql, re.IGNORECASE)`:
at each position try the FROM alternative, then the JOIN alternative; on a
match emit the captured name and continue after the match (non-overlapping),
otherwise advance one character. -/

/-- Characters matched by the capture group `[a-zA-Z0-9_.-]`. -/
def isNameChar (c : Char) : Bool :=
  ('a' ≤ c && c ≤ 'z') || ('A' ≤ c && c ≤ 'Z') || ('0' ≤ c && c ≤ '9') ||
  c = '_' || c = '.' || c = '-'

/-- Characters matched by the regex class `\s`. -/
def isReSpace (c : Char) : Bool :=
  c = ' ' || c = '\t' || c = '\n' || c = '\r' || c = Char.ofNat 11 || c = Char.ofNat 12

/-- Case-insensitive match of a literal keyword, returning the remainder. -/
def matchCI : List Char → List Char → Option (List Char)
  | [], cs => some cs
  | _ :: _, [] => none
  | k :: ks, c :: cs => if k.toLower = c.toLower then matchCI ks cs else none

/-- The backtick character (written by code so the source file carries none). -/
def backtick : Char := Char.ofNat 96

/-- Match one alternative `KW\s+(backtick?)([a-zA-Z0-9_.-]+)(backtick?)`,
returning the captured table name and the remainder after the match. -/
def matchRef (kw : List Char) (cs : List Char) : Option (String × List Char) :=
  match matchCI kw cs with
  | none => none
  | some rest =>
    if rest.takeWhile isReSpace = [] then none
    else
      let rest1 := rest.dropWhile isReSpace
      let rest2 := if rest1.head? = some backtick then rest1.tail else rest1
      let name := rest2.takeWhile isNameChar
      if name = [] then none
      else
        let rest3 := rest2.dropWhile isNameChar
        let rest4 := if rest3.head? = some backtick then rest3.tail else rest3
        some (String.mk name, rest4)

/-- Fueled scan (each successful match consumes at least six characters and a
failed position consumes one, so fuel `length + 1` never runs out). -/
def scanRefsAux : Nat → List Char → List String
  | 0, _ => []
  | _ + 1, [] => []
  | fuel + 1, c :: cs =>
    match matchRef ['f', 'r', 'o', 'm'] (c :: cs) with
    | some (name, rest) => name :: scanRefsAux fuel rest
    | none =>
      match matchRef ['j', 'o', 'i', 'n'] (c :: cs) with
      | some (name, rest) => name :: scanRefsAux fuel rest
      | none => scanRefsAux fuel cs

/-- `extract_table_references(sql)`: the table names found after `FROM` and
`JOIN` keywords, in order, duplicates preserved. -/
def extract_table_references (sql : String) : List String :=
  scanRefsAux (sql.data.length + 1) sql.data

/-! ## `query_tool_handler` (handlers/tools.py)

The BigQuery client and the event broadcasts are outside the cache's scope:
the warehouse's answer is passed in as `warehouse_rows` (the handler is only
modelled on the path where execution succeeds), and broadcasts are I/O with no
effect on the store. -/

/-- What the handler returns to its caller (the three content shapes). -/
inductive QueryOutcome where
  | cachedHit (result : ResultData) (metadata : Metadata) (cached_at : Nat)
  | executed (rows : ResultData)
  | forbidden
deriving Repr, DecidableEq

def forbidden_keywords : List String :=
  ["INSERT", "UPDATE", "DELETE", "CREATE", "DROP", "ALTER"]

/--
`query_tool_handler`: consult the cache when `use_cache` is set and a
knowledge base is present, returning the cached payload on a hit; otherwise
reject queries whose upper-cased word list contains a forbidden keyword;
otherwise execute, cache the result only when it has more than zero rows
(with the default TTL of 24), and record the query pattern. `lookupFail` and
`insertFail` are the failure injections for the cache lookup and the cache
insert.
-/
def query_tool_handler (lookupFail insertFail : Option Nat) (store : Store) (now : Nat)
    (sql : String) (use_cache : Bool) (has_kb : Bool) (warehouse_rows : ResultData)
    (stats : Metadata) (user_id : Option String) : QueryOutcome × Store :=
  let tables_accessed := extract_table_references sql
  let lookup :=
    if use_cache && has_kb then get_cached_query lookupFail store now sql
    else (none, store)
  match lookup with
  | (some c, store0) => (.cachedHit c.result c.metadata c.cached_at, store0)
  | (none, store0) =>
    let words := pySplitWs (pyUpper sql)
    if forbidden_keywords.any (fun kw => words.contains kw) then
      let store1 :=
        if has_kb then
          save_query_pattern none store0 sql [] tables_accessed false
            (some "Only READ operations are allowed.") user_id
        else store0
      (.forbidden, store1)
    else
      let store1 :=
        if use_cache && has_kb && decide (0 < warehouse_rows.length) then
          (cache_query_result insertFail store0 now sql warehouse_rows stats
            tables_accessed 24).2
        else store0
      let store2 :=
        if has_kb then
          save_query_pattern none store1 sql stats tables_accessed true none user_id
        else store1
      (.executed warehouse_rows, store2)

/-! ## Cache Administrator -/

/-- Descending insertion by hit counter (later rows first on ties). -/
def insertByHits (r : CacheRow) : List CacheRow → List CacheRow
  | [] => [r]
  | x :: xs => if x.hit_count ≤ r.hit_count then r :: x :: xs else x :: insertByHits r xs

/-- Sort cache rows by hit counter, highest first. -/
def sortByHits (l : List CacheRow) : List CacheRow := l.foldr insertByHits []

/-- Result shape for an administrator command. -/
inductive CacheAdminResult where
  | ok (message : String)
  | stats (total expired totalHits distinctTables : Nat)
  | topQueries (entries : List CacheRow)
  | missingParams
  | unsupportedAction (action : String)
deriving Repr, DecidableEq

/--
Modelled from the spec: `cache_management_handler` is imported by the MCP app
from `handlers.tools` but its body is not among the sources. Spec §4.6:
dispatch on the action name; `clear_all` force-expires every entry,
`clear_table` is the invalidator for the given triple, `clear_expired`
physically purges entries whose expiry is already past, `cache_stats` reports
aggregate counts, `cache_top_queries` reports the entries with highest hit
counters; any unknown action name fails with an explicit unsupported-action
result rather than a silent no-op.
-/
def cache_management_handler (store : Store) (now : Nat) (action : String)
    (project_id dataset_id table_id : Option String) (limit : Nat) :
    CacheAdminResult × Store :=
  if action = "clear_all" then
    (.ok "cleared all cache entries",
     { store with query_cache := store.query_cache.map (fun r => { r with expires_at := now }) })
  else if action = "clear_table" then
    match project_id, dataset_id, table_id with
    | some p, some d, some t =>
        (.ok "cleared table cache entries", invalidate_cache_for_table none store now p d t)
    | _, _, _ => (.missingParams, store)
  else if action = "clear_expired" then
    (.ok "purged expired cache entries",
     { store with query_cache := store.query_cache.filter (fun r => decide (now ≤ r.expires_at)) })
  else if action = "cache_stats" then
    (.stats store.query_cache.length
       (store.query_cache.filter (fun r => decide (r.expires_at < now))).length
       (store.query_cache.map (fun r => r.hit_count)).sum
       ((store.table_dependencies.map (fun dep =>
          (dep.project_id, dep.dataset_id, dep.table_id))).dedup).length,
     store)
  else if action = "cache_top_queries" then
    (.topQueries ((sortByHits store.query_cache).take limit), store)
  else (.unsupportedAction action, store)

/-! ## Helper lemmas -/

/-- A map whose function fixes every element of the list is the identity. -/
theorem list_map_self {α : Type} {f : α → α} :
    ∀ {l : List α}, (∀ a ∈ l, f a = a) → l.map f = l := by
  intro l
  induction l with
  | nil => intro _; rfl
  | cons a l ih =>
    intro h
    simp only [List.map_cons, h a (List.mem_cons_self a l)]
    rw [ih (fun x hx => h x (List.mem_cons_of_mem a hx))]

/-- The digest always has exactly 64 hex characters. -/
theorem sha256hex_length (msg : List Nat) : (sha256hex msg).length = 64 := by
  simp [sha256hex, wordHex, String.length]

/-- The fingerprint is a fixed-length digest. -/
theorem generate_query_hash_length (sql : String)
    (params : Option (List (String × String))) :
    (generate_query_hash sql params).length = 64 := by
  unfold generate_query_hash
  cases params with
  | none => exact sha256hex_length _
  | some ps =>
    by_cases h : ps = [] <;> simp only [h] <;> exact sha256hex_length _

/-- The row inserted by `cache_query_result` (no failure): fresh id, the
query's fingerprint, expiry `now + ttl`, zero hits. -/
def insertedRow (store : Store) (now : Nat) (sql : String) (rd : ResultData)
    (md : Metadata) (ttl : Nat) : CacheRow :=
  { id := store.next_id, query_hash := generate_query_hash sql none, sql_query := sql,
    result_data := rd, metadata := md, created_at := now, expires_at := now + ttl,
    hit_count := 0 }

/-- Characterization of a failure-free `cache_query_result`: it returns `true`
and appends the new cache row, the dependency rows, and bumps the id. -/
theorem cache_query_result_spec (store : Store) (now : Nat) (sql : String)
    (rd : ResultData) (md : Metadata) (tbls : List String) (ttl : Nat) :
    cache_query_result none store now sql rd md tbls ttl =
      (true,
       { store with
           query_cache := store.query_cache ++ [insertedRow store now sql rd md ttl],
           table_dependencies := store.table_dependencies ++ depsFor store.next_id md tbls,
           next_id := store.next_id + 1 }) := by
  unfold cache_query_result insertedRow
  by_cases hd : depsFor store.next_id md tbls = [] <;> simp [hd]

/-- Characterization of a failure-free `get_cached_query` by the list of
matching unexpired rows. -/
theorem get_cached_query_none_eq (store : Store) (now : Nat) (sql : String) :
    get_cached_query none store now sql =
      match cacheMatches store.query_cache now (generate_query_hash sql none) with
      | [] => (none, store)
      | first :: _ =>
          (some { cached := true, result := first.result_data, metadata := first.metadata,
                  cached_at := first.created_at },
           { store with query_cache := store.query_cache.map (fun r =>
               if decide (r.id = first.id) then { r with hit_count := first.hit_count + 1 }
               else r) }) := by
  unfold get_cached_query
  cases hm : cacheMatches store.query_cache now (generate_query_hash sql none) <;> simp [hm]

/-- A lookup misses when every row carrying the query's fingerprint is
expired, and leaves the store untouched. -/
theorem get_cached_query_miss (store : Store) (now : Nat) (sql : String)
    (h : ∀ r ∈ store.query_cache,
      r.query_hash = generate_query_hash sql none → r.expires_at < now) :
    get_cached_query none store now sql = (none, store) := by
  rw [get_cached_query_none_eq]
  have hnil : cacheMatches store.query_cache now (generate_query_hash sql none) = [] := by
    refine List.filter_eq_nil_iff.mpr (fun r hr => ?_)
    simp only [decide_eq_true_eq, not_and]
    intro hhash
    exact Nat.not_le.mpr (h r hr hhash)
  rw [hnil]

/-- Characterization of a failure-free `invalidate_cache_for_table`: every
cache row whose id occurs among the matching dependencies' owners gets its
expiry set to `now`; the rest of the store is untouched. -/
theorem invalidate_eq_map (store : Store) (now : Nat) (p d t : String) :
    invalidate_cache_for_table none store now p d t =
      { store with query_cache := store.query_cache.map (fun r =>
          if decide (r.id ∈ (store.table_dependencies.filter (depMatches p d t)).map
              (fun dep => dep.query_cache_id))
          then { r with expires_at := now } else r) } := by
  unfold invalidate_cache_for_table
  by_cases hd : store.table_dependencies.filter (depMatches p d t) = []
  · simp only [hd, List.map_nil]
    simp only [List.not_mem_nil, decide_False, if_false]
    cases store
    simp [list_map_self (f := fun r : CacheRow => r) (fun a _ => rfl)]
  · simp [hd]

/-- Every dependency row built for a cache entry points back at that entry. -/
theorem depsFor_owner (cid : Nat) (md : Metadata) (tbls : List String) :
    ∀ dep ∈ depsFor cid md tbls, dep.query_cache_id = cid := by
  intro dep hdep
  obtain ⟨tp, _, htp⟩ := List.mem_filterMap.mp hdep
  by_cases h : 2 ≤ (pySplitDot tp).length
  · simp only [h, if_pos] at htp
    cases htp
    rfl
  · simp [h] at htp

/-- The dependency rows are one per table reference with at least two
dot-separated parts (duplicates among the references are preserved). -/
theorem depsFor_length (cid : Nat) (md : Metadata) (tbls : List String) :
    (depsFor cid md tbls).length =
      (tbls.filter (fun tp => decide (2 ≤ (pySplitDot tp).length))).length := by
  induction tbls with
  | nil => rfl
  | cons a l ih =>
    by_cases h : 2 ≤ (pySplitDot a).length <;>
      simp [depsFor, List.filterMap_cons, h, List.filter_cons] at * <;>
      simpa [depsFor] using ih

/-- Inserting into a descending list never yields the empty list. -/
theorem insertDesc_ne_nil (v : Nat) (l : List Nat) : insertDesc v l ≠ [] := by
  cases l with
  | nil => simp [insertDesc]
  | cons x xs =>
    simp only [insertDesc]
    split <;> simp

/-- The maximum the spec's "read the current maximum" denotes. -/
def specMax (l : List Nat) : Nat := l.foldr Nat.max 0

/-- The head of the descending sort is the maximum. -/
theorem sortDesc_headD (l : List Nat) : (sortDesc l).headD 0 = specMax l := by
  induction l with
  | nil => rfl
  | cons a l ih =>
    show (insertDesc a (sortDesc l)).headD 0 = Nat.max a (specMax l)
    rw [← ih]
    cases hs : sortDesc l with
    | nil => simp [insertDesc]
    | cons x xs =>
      simp only [insertDesc, List.headD_cons]
      by_cases h : x ≤ a
      · simp [h, Nat.max_eq_left h]
      · simp [h, Nat.max_eq_right (Nat.le_of_lt (Nat.lt_of_not_le h))]

/-- The version the snapshot select assigns is the stored maximum plus one. -/
theorem sortDesc_next (l : List Nat) :
    (match sortDesc l with
     | [] => 1
     | v :: _ => v + 1) = specMax l + 1 := by
  cases hs : sortDesc l with
  | nil =>
    cases l with
    | nil => rfl
    | cons a l => exact absurd hs (insertDesc_ne_nil a (sortDesc l))
  | cons v rest =>
    have h := sortDesc_headD l
    rw [hs] at h
    simp only [List.headD_cons] at h
    rw [h]

/-! ## Claims -/

/-- The empty backing store. -/
def emptyStore : Store := ⟨[], [], [], [], 0⟩

/--
C4: for every pair of query texts that are equal after trimming
leading/trailing whitespace and lower-casing, and for identical optional
parameter mappings, `_generate_query_hash` produces identical digests, and
the digest has a fixed length (64 hex characters). The function is a pure
Lean function of its arguments, so two calls with the same input always yield
the same digest.
-/
theorem C4_fingerprinter_deterministic (s1 s2 : String)
    (params : Option (List (String × String)))
    (hnorm : pyLower (pyStrip s1) = pyLower (pyStrip s2)) :
    generate_query_hash s1 params = generate_query_hash s2 params ∧
    (generate_query_hash s1 params).length = 64 ∧
    (generate_query_hash s2 params).length = 64 := by
  refine ⟨?_, generate_query_hash_length s1 params, generate_query_hash_length s2 params⟩
  unfold generate_query_hash
  rw [hnorm]

/-- C4 witness: a query with surrounding whitespace and upper-case letters
fingerprints identically to its normalized form. -/
theorem C4_witness :
    pyLower (pyStrip "  SELECT * FROM p.d.t \n") = pyLower (pyStrip "select * from p.d.t") ∧
    generate_query_hash "  SELECT * FROM p.d.t \n" none =
      generate_query_hash "select * from p.d.t" none :=
  ⟨by decide, (C4_fingerprinter_deterministic "  SELECT * FROM p.d.t \n"
      "select * from p.d.t" none (by decide)).1⟩

/--
C1: for a cache entry inserted with a positive TTL into a store holding no
other unexpired record with the same fingerprint, a lookup before the expiry
time has passed returns the inserted result payload and increments that
entry's hit counter by exactly 1 (conjuncts 1 and 2); when every record
matching the fingerprint has its expiry in the past, lookup returns absent
even without explicit invalidation (conjunct 3); and lookup returns an entry
only if an unexpired record with a matching fingerprint exists (conjunct 4).
-/
theorem C1_lookup_roundtrip (store : Store) (t0 t1 ttl : Nat) (sql : String)
    (rd : ResultData) (md : Metadata) (tbls : List String)
    (hwf : store.WF) (httl : 0 < ttl) (ht : t1 ≤ t0 + ttl)
    (hfresh : ∀ r ∈ store.query_cache,
      r.query_hash = generate_query_hash sql none → r.expires_at < t1) :
    (get_cached_query none ((cache_query_result none store t0 sql rd md tbls ttl).2) t1 sql).1 =
      some { cached := true, result := rd, metadata := md, cached_at := t0 } ∧
    (get_cached_query none ((cache_query_result none store t0 sql rd md tbls ttl).2) t1 sql).2.query_cache =
      store.query_cache ++ [{ insertedRow store t0 sql rd md ttl with hit_count := 1 }] ∧
    (get_cached_query none store t1 sql).1 = none ∧
    (∀ (s : Store) (now : Nat) (c : CachedResult),
      (get_cached_query none s now sql).1 = some c →
      ∃ r ∈ s.query_cache,
        r.query_hash = generate_query_hash sql none ∧ now ≤ r.expires_at) := by
  have hins := cache_query_result_spec store t0 sql rd md tbls ttl
  set row := insertedRow store t0 sql rd md ttl with hrow
  have hmatches :
      cacheMatches ((cache_query_result none store t0 sql rd md tbls ttl).2).query_cache t1
        (generate_query_hash sql none) = [row] := by
    rw [hins]
    show cacheMatches (store.query_cache ++ [row]) t1 (generate_query_hash sql none) = [row]
    unfold cacheMatches
    rw [List.filter_append]
    have h1 : store.query_cache.filter
        (fun r => decide (r.query_hash = generate_query_hash sql none ∧ t1 ≤ r.expires_at)) = [] := by
      refine List.filter_eq_nil_iff.mpr (fun r hr => ?_)
      simp only [decide_eq_true_eq, not_and]
      intro hhash
      exact Nat.not_le.mpr (hfresh r hr hhash)
    have h2 : ([row] : List CacheRow).filter
        (fun r => decide (r.query_hash = generate_query_hash sql none ∧ t1 ≤ r.expires_at)) = [row] := by
      simp [hrow, insertedRow, ht]
    rw [h1, h2, List.nil_append]
  refine ⟨?_, ?_, ?_, ?_⟩
  · rw [get_cached_query_none_eq, hmatches]
    simp [hrow, insertedRow]
  · rw [get_cached_query_none_eq, hmatches]
    simp only
    rw [hins]
    show (store.query_cache ++ [row]).map _ = _
    rw [List.map_append]
    congr 1
    · refine list_map_self (fun r hr => ?_)
      have hlt : r.id < store.next_id := hwf.1 r hr
      have : ¬ (r.id = row.id) := by
        simp only [hrow, insertedRow]
        omega
      simp [this]
    · simp [hrow, insertedRow]
  · exact congrArg Prod.fst (get_cached_query_miss store t1 sql hfresh)
  · intro s now c hc
    rw [get_cached_query_none_eq] at hc
    cases hm : cacheMatches s.query_cache now (generate_query_hash sql none) with
    | nil => rw [hm] at hc; simp at hc
    | cons first rest =>
      have hmem : first ∈ s.query_cache.filter
          (fun r => decide (r.query_hash = generate_query_hash sql none ∧ now ≤ r.expires_at)) := by
        rw [show s.query_cache.filter
            (fun r => decide (r.query_hash = generate_query_hash sql none ∧ now ≤ r.expires_at)) =
            cacheMatches s.query_cache now (generate_query_hash sql none) from rfl, hm]
        exact List.mem_cons_self first rest
      have := List.mem_filter.mp hmem
      exact ⟨first, this.1, by simpa using this.2⟩

/-- C1 witness: inserting `select 1` with TTL 1 into the empty store at time 0
and looking it up at time 0 returns the inserted payload. -/
theorem C1_witness :
    emptyStore.WF ∧
    (get_cached_query none
        ((cache_query_result none emptyStore 0 "select 1" [[("x", "1")]] [] [] 1).2)
        0 "select 1").1 =
      some { cached := true, result := [[("x", "1")]], metadata := [], cached_at := 0 } :=
  ⟨by decide,
   (C1_lookup_roundtrip emptyStore 0 0 1 "select 1" [[("x", "1")]] [] []
      (by decide) (by decide) (by decide) (by decide)).1⟩

/-- A cached entry for `select 1` with expiry 10. -/
def C2row : CacheRow :=
  { id := 0, query_hash := generate_query_hash "select 1" none,
    sql_query := "select 1", result_data := [[("x", "1")]], metadata := [],
    created_at := 0, expires_at := 10, hit_count := 0 }

/-- A dependency of that entry on the table triple `(p, d, t)`. -/
def C2dep : DepRow :=
  { query_cache_id := 0, project_id := some "p", dataset_id := "d", table_id := "t" }

/-- A store with one cached entry for `select 1` (expiry 10) depending on the
table triple `(p, d, t)`. -/
def C2store : Store :=
  { query_cache := [C2row], table_dependencies := [C2dep],
    schema_snapshots := [], query_history := [], next_id := 1 }

/--
C2 counterexample: the claim that once `invalidate(p,d,t)` returns, *every*
subsequent lookup of a dependent fingerprint observes a miss is false at the
invalidation timestamp itself. Invalidation sets the entry's expiry to `now`,
but the lookup's select keeps rows with `expires_at >= now`, so a lookup at
the same timestamp (time 5 here) still returns the entry.
-/
theorem C2_counterexample :
    (get_cached_query none (invalidate_cache_for_table none C2store 5 "p" "d" "t")
        5 "select 1").1 ≠ none := by
  decide

/--
C2 (amended): once `invalidate(p,d,t)` performed at time `now` returns, every
lookup at a *strictly later* time of a fingerprint all of whose matching
records depend on `(p,d,t)` observes a miss (conjunct 1); every cache row
without a recorded dependency on `(p,d,t)` is left entirely unchanged —
expiry, payload and hit counter (conjunct 2); and invalidating a triple with
no dependents leaves the whole store unchanged (conjunct 3).
-/
theorem C2_invalidate_amended (store : Store) (now now' : Nat) (p d t sql : String)
    (hlt : now < now')
    (hdep : ∀ r ∈ store.query_cache, r.query_hash = generate_query_hash sql none →
      ∃ dep ∈ store.table_dependencies, dep.query_cache_id = r.id ∧
        dep.project_id = some p ∧ dep.dataset_id = d ∧ dep.table_id = t) :
    (get_cached_query none (invalidate_cache_for_table none store now p d t) now' sql).1 =
      none ∧
    (∀ r ∈ store.query_cache,
      (∀ dep ∈ store.table_dependencies, dep.query_cache_id = r.id →
        ¬(dep.project_id = some p ∧ dep.dataset_id = d ∧ dep.table_id = t)) →
      r ∈ (invalidate_cache_for_table none store now p d t).query_cache) ∧
    ((∀ dep ∈ store.table_dependencies,
        ¬(dep.project_id = some p ∧ dep.dataset_id = d ∧ dep.table_id = t)) →
      invalidate_cache_for_table none store now p d t = store) := by
  refine ⟨?_, ?_, ?_⟩
  · rw [invalidate_eq_map]
    refine congrArg Prod.fst (get_cached_query_miss _ now' sql ?_)
    intro r hr hhash
    obtain ⟨r0, hr0, rfl⟩ := List.mem_map.mp hr
    by_cases hid : r0.id ∈ (store.table_dependencies.filter (depMatches p d t)).map
        (fun dep => dep.query_cache_id)
    · simp only [hid, decide_True, if_true]
      exact hlt
    · exfalso
      simp only [hid, decide_False, if_false] at hhash
      obtain ⟨dep, hdmem, hdid, hdp, hdd, hdt⟩ := hdep r0 hr0 hhash
      exact hid (List.mem_map.mpr ⟨dep, List.mem_filter.mpr
        ⟨hdmem, by simp [depMatches, hdp, hdd, hdt]⟩, hdid⟩)
  · intro r hr hnodep
    rw [invalidate_eq_map]
    have hnot : ¬ (r.id ∈ (store.table_dependencies.filter (depMatches p d t)).map
        (fun dep => dep.query_cache_id)) := by
      intro hmem
      obtain ⟨dep, hdmem, hdid⟩ := List.mem_map.mp hmem
      have := List.mem_filter.mp hdmem
      exact hnodep dep this.1 hdid (by simpa [depMatches] using this.2)
    exact List.mem_map.mpr ⟨r, hr, by simp [hnot]⟩
  · intro hnone
    unfold invalidate_cache_for_table
    have : store.table_dependencies.filter (depMatches p d t) = [] := by
      refine List.filter_eq_nil_iff.mpr (fun dep hdep2 => ?_)
      simpa [depMatches] using hnone dep hdep2
    simp [this]

/-- C2 witness: invalidating `(p, d, t)` at time 5 makes a lookup at the
strictly later time 6 miss. -/
theorem C2_witness :
    (5 < 6) ∧
    (get_cached_query none (invalidate_cache_for_table none C2store 5 "p" "d" "t")
        6 "select 1").1 = none :=
  ⟨by decide, (C2_invalidate_amended C2store 5 6 "p" "d" "t" "select 1"
      (by decide) (by decide)).1⟩

/-- A schema snapshot for `(p, d, t)` at version 5. -/
def C3snap : SchemaRow :=
  { project_id := "p", dataset_id := "d", table_id := "t", schema_version := 5,
    schema_data := [], row_count := none, size_bytes := none }

/-- A store whose only snapshot for `(p, d, t)` is at version 5. -/
def C3storeB : Store :=
  { query_cache := [], table_dependencies := [], schema_snapshots := [C3snap],
    query_history := [], next_id := 0 }

/--
C3 counterexample: the claim that `track_schema_change` returns the newly
assigned version number is false — the function returns the boolean `true`.
On the empty store the assigned version is 1 and on `C3storeB` it is 6, yet
the returned value is the same `true` in both runs, so the return value is a
success flag carrying no version.
-/
theorem C3_counterexample :
    (track_schema_change none emptyStore 0 "p" "d" "t" [] []).1 = true ∧
    (track_schema_change none C3storeB 0 "p" "d" "t" [] []).1 = true ∧
    ((track_schema_change none emptyStore 0 "p" "d" "t" [] []).2.schema_snapshots.map
      (fun s => s.schema_version)).getLastD 0 = 1 ∧
    ((track_schema_change none C3storeB 0 "p" "d" "t" [] []).2.schema_snapshots.map
      (fun s => s.schema_version)).getLastD 0 = 6 := by
  decide

/-- The snapshot row `track_schema_change` appends: version is the current
maximum for the triple (0 when none exists) plus one. -/
def newSnapshot (store : Store) (p d t : String) (schema : List Metadata)
    (md : Metadata) : SchemaRow :=
  { project_id := p, dataset_id := d, table_id := t,
    schema_version := specMax (versionsFor store p d t) + 1,
    schema_data := schema, row_count := metaGet md "num_rows",
    size_bytes := metaGet md "num_bytes" }

/--
C3 (amended): `track_schema_change` reads the current maximum schema version
for the triple (0 when no snapshot exists), writes a new snapshot at maximum
plus one, then triggers invalidation of the cache entries depending on the
triple — but it returns the success flag `true`, not the newly assigned
version number.
-/
theorem C3_record_schema_amended (store : Store) (now : Nat) (p d t : String)
    (schema : List Metadata) (md : Metadata) :
    track_schema_change none store now p d t schema md =
      (true,
       invalidate_cache_for_table none
         { store with schema_snapshots :=
             store.schema_snapshots ++ [newSnapshot store p d t schema md] }
         now p d t) := by
  unfold track_schema_change newSnapshot
  rw [sortDesc_next (versionsFor store p d t)]
  simp

/--
C5 counterexample: the claim that insert writes exactly one TableDependency
row per *distinct* referenced table is false — the source iterates over
`tables_accessed` without deduplication. Inserting with the reference list
`["d.t", "d.t"]` (one distinct table) writes two dependency rows.
-/
theorem C5_counterexample :
    ((cache_query_result none emptyStore 0 "select 1" [] [] ["d.t", "d.t"] 1).2.table_dependencies).length = 2 ∧
    (["d.t", "d.t"] : List String).dedup.length = 1 := by
  decide

/--
C5 (amended): for every insert with table-reference list `L` and TTL `t`, a
new CacheEntry is written with expiry `now + t`, followed by exactly one
TableDependency row per *element* of `L` that has at least two dot-separated
parts — a table appearing several times in `L` yields one dependency row per
occurrence, not a single row.
-/
theorem C5_insert_amended (store : Store) (now : Nat) (sql : String) (rd : ResultData)
    (md : Metadata) (L : List String) (ttl : Nat) :
    (cache_query_result none store now sql rd md L ttl).1 = true ∧
    (cache_query_result none store now sql rd md L ttl).2.query_cache =
      store.query_cache ++ [insertedRow store now sql rd md ttl] ∧
    (insertedRow store now sql rd md ttl).expires_at = now + ttl ∧
    (cache_query_result none store now sql rd md L ttl).2.table_dependencies =
      store.table_dependencies ++ depsFor store.next_id md L ∧
    (depsFor store.next_id md L).length =
      (L.filter (fun tp => decide (2 ≤ (pySplitDot tp).length))).length := by
  rw [cache_query_result_spec]
  exact ⟨rfl, rfl, rfl, rfl, depsFor_length store.next_id md L⟩

/--
C6: backing-store failures during lookup, insert, or invalidate never raise
to the caller: a failed lookup returns absent with the store untouched
(conjuncts 1 and 2), a failed insert returns failure (conjuncts 3 to 5 —
after the first call succeeded the cache row is already written, the
partial-failure case), a failed invalidation returns normally with the store
untouched (conjuncts 6 and 7), and the surrounding query request proceeds as
an uncached direct execution even when both its cache lookup and its cache
insert fail (conjunct 8).
-/
theorem C6_store_failures_nonfatal (store : Store) (now : Nat) (sql : String)
    (rd : ResultData) (md : Metadata) (tbls : List String) (ttl : Nat)
    (p d t : String) (stats : Metadata) (uid : Option String) (n : Nat)
    (hn : n ≤ 1)
    (hsafe : ∀ kw ∈ forbidden_keywords, kw ∉ pySplitWs (pyUpper sql)) :
    (get_cached_query (some n) store now sql).1 = none ∧
    (get_cached_query (some n) store now sql).2 = store ∧
    (cache_query_result (some 0) store now sql rd md tbls ttl).1 = false ∧
    (cache_query_result (some 0) store now sql rd md tbls ttl).2 = store ∧
    (depsFor store.next_id md tbls ≠ [] →
      (cache_query_result (some 1) store now sql rd md tbls ttl).1 = false) ∧
    invalidate_cache_for_table (some 0) store now p d t = store ∧
    invalidate_cache_for_table (some 1) store now p d t = store ∧
    (query_tool_handler (some 0) (some 0) store now sql true true rd stats uid).1 =
      QueryOutcome.executed rd := by
  have hlookup : get_cached_query (some n) store now sql = (none, store) := by
    unfold get_cached_query
    interval_cases n
    · simp
    · cases hm : cacheMatches store.query_cache now (generate_query_hash sql none) <;>
        simp [hm]
  refine ⟨congrArg Prod.fst hlookup, congrArg Prod.snd hlookup, ?_, ?_, ?_, ?_, ?_, ?_⟩
  · unfold cache_query_result; simp
  · unfold cache_query_result; simp
  · intro hdeps
    unfold cache_query_result
    simp [hdeps]
  · unfold invalidate_cache_for_table; simp
  · unfold invalidate_cache_for_table
    by_cases hd : store.table_dependencies.filter (depMatches p d t) = [] <;> simp [hd]
  · unfold query_tool_handler
    have h0 : get_cached_query (some 0) store now sql = (none, store) := by
      unfold get_cached_query; simp
    rw [h0]
    have hnot : ¬ ∃ kw ∈ forbidden_keywords, kw ∈ pySplitWs (pyUpper sql) := by
      rintro ⟨kw, hkw, hmem⟩
      exact hsafe kw hkw hmem
    simp [hnot]

/-- C6 witness: an injected failure of the lookup's select on the empty store
returns absent instead of raising. -/
theorem C6_witness :
    (0 ≤ 1) ∧
    (get_cached_query (some 0) emptyStore 0 "select 1").1 = none :=
  ⟨by decide,
   (C6_store_failures_nonfatal emptyStore 0 "select 1" [] [] [] 1 "p" "d" "t" [] none 0
      (by decide) (by decide)).1⟩

/-- The store after inserting `select 1` with payload `x = 1` at time 0. -/
def C7storeA : Store :=
  (cache_query_result none emptyStore 0 "select 1" [[("x", "1")]] [] [] 1).2

/-- The same store after a second, duplicate insert of `select 1` with the
different payload `x = 2`. -/
def C7storeB : Store :=
  (cache_query_result none C7storeA 0 "select 1" [[("x", "2")]] [] [] 1).2

/--
C7 counterexample: the claim that a lookup after several unexpired inserts
with the same fingerprint returns the *latest* written entry is false — the
source takes `result.data[0]`, the first matching row in store order, so
after inserting payload `x = 1` and then payload `x = 2` under the same
fingerprint, the lookup returns the earlier payload `x = 1`.
-/
theorem C7_counterexample :
    (get_cached_query none C7storeB 0 "select 1").1 =
      some { cached := true, result := [[("x", "1")]], metadata := [], cached_at := 0 } ∧
    ([[("x", "1")]] : ResultData) ≠ [[("x", "2")]] := by
  decide

/--
C7 (amended): duplicate inserts of entries with the same fingerprint never
corrupt the store — the insert preserves well-formedness, keeping every row
retrievable by its distinct id (conjunct 1) — and the lookup is deterministic
about which duplicate is visible: it returns the *first* matching unexpired
row in store (insertion) order, i.e. the earliest surviving write, not the
latest (conjunct 2).
-/
theorem C7_duplicates_amended (store : Store) (now t : Nat) (sql : String)
    (rd : ResultData) (md : Metadata) (tbls : List String) (ttl : Nat)
    (hwf : store.WF) :
    ((cache_query_result none store now sql rd md tbls ttl).2).WF ∧
    (get_cached_query none store t sql).1 =
      (cacheMatches store.query_cache t (generate_query_hash sql none)).head?.map
        (fun r => { cached := true, result := r.result_data, metadata := r.metadata,
                    cached_at := r.created_at }) := by
  constructor
  · rw [cache_query_result_spec]
    constructor
    · intro r hr
      simp only [List.mem_append, List.mem_singleton] at hr
      cases hr with
      | inl h => exact Nat.lt_succ_of_lt (hwf.1 r h)
      | inr h => rw [h]; exact Nat.lt_succ_self _
    · intro dep hdep
      simp only [List.mem_append] at hdep
      cases hdep with
      | inl h => exact Nat.lt_succ_of_lt (hwf.2 dep h)
      | inr h => rw [depsFor_owner store.next_id md tbls dep h]; exact Nat.lt_succ_self _
  · rw [get_cached_query_none_eq]
    cases cacheMatches store.query_cache t (generate_query_hash sql none) <;> simp

/-- C7 witness: the double insert of `select 1` leaves a well-formed store. -/
theorem C7_witness :
    C7storeA.WF ∧ C7storeB.WF :=
  ⟨by decide,
   (C7_duplicates_amended C7storeA 0 0 "select 1" [[("x", "2")]] [] [] 1 (by decide)).1⟩

/--
C8: for every administrator action name outside
`{clear_all, clear_table, clear_expired, cache_stats, cache_top_queries}`,
the cache-management command returns an explicit unsupported-action error
result — never a silent success or a crash — and performs no store change.
(The handler body is not among the sources; it is modelled from the spec.)
-/
theorem C8_unknown_action (store : Store) (now : Nat) (action : String)
    (p d t : Option String) (limit : Nat)
    (h : action ∉ ["clear_all", "clear_table", "clear_expired", "cache_stats",
      "cache_top_queries"]) :
    (cache_management_handler store now action p d t limit).1 =
      CacheAdminResult.unsupportedAction action ∧
    (cache_management_handler store now action p d t limit).2 = store := by
  simp only [List.mem_cons, List.not_mem_nil, or_false, not_or] at h
  obtain ⟨h1, h2, h3, h4, h5⟩ := h
  unfold cache_management_handler
  simp [h1, h2, h3, h4, h5]

/-- C8 witness: the unknown action `frobnicate` yields the explicit
unsupported-action result. -/
theorem C8_witness :
    ("frobnicate" ∉ ["clear_all", "clear_table", "clear_expired", "cache_stats",
      "cache_top_queries"]) ∧
    (cache_management_handler emptyStore 0 "frobnicate" none none none 5).1 =
      CacheAdminResult.unsupportedAction "frobnicate" :=
  ⟨by decide,
   (C8_unknown_action emptyStore 0 "frobnicate" none none none 5 (by decide)).1⟩

/--
C9: a successfully executed query whose result contains zero rows writes no
cache entry even with caching enabled and a knowledge base present — the
cache table and the dependency table are unchanged (conjuncts 2 and 3) —
so a subsequent identical query at any later time misses the cache and
re-executes against the warehouse (conjunct 4).
-/
theorem C9_zero_rows_never_cached (store : Store) (t1 t2 : Nat) (sql : String)
    (stats stats2 : Metadata) (uid uid2 : Option String) (rows2 : ResultData)
    (hsafe : ∀ kw ∈ forbidden_keywords, kw ∉ pySplitWs (pyUpper sql))
    (hmiss : ∀ r ∈ store.query_cache,
      r.query_hash = generate_query_hash sql none → r.expires_at < t1)
    (ht : t1 ≤ t2) :
    (query_tool_handler none none store t1 sql true true [] stats uid).1 =
      QueryOutcome.executed [] ∧
    (query_tool_handler none none store t1 sql true true [] stats uid).2.query_cache =
      store.query_cache ∧
    (query_tool_handler none none store t1 sql true true [] stats uid).2.table_dependencies =
      store.table_dependencies ∧
    (query_tool_handler none none
        ((query_tool_handler none none store t1 sql true true [] stats uid).2)
        t2 sql true true rows2 stats2 uid2).1 = QueryOutcome.executed rows2 := by
  have hnot : ¬ ∃ kw ∈ forbidden_keywords, kw ∈ pySplitWs (pyUpper sql) := by
    rintro ⟨kw, hkw, hmem⟩
    exact hsafe kw hkw hmem
  have hrun1 : query_tool_handler none none store t1 sql true true [] stats uid =
      (QueryOutcome.executed [],
       save_query_pattern none store sql stats (extract_table_references sql) true none uid) := by
    unfold query_tool_handler
    rw [show (if true && true then get_cached_query none store t1 sql
        else (none, store)) = get_cached_query none store t1 sql by simp,
      get_cached_query_miss store t1 sql hmiss]
    simp [hnot]
  have hsave : (save_query_pattern none store sql stats (extract_table_references sql)
      true none uid).query_cache = store.query_cache := by
    unfold save_query_pattern
    simp
  refine ⟨by rw [hrun1], by rw [hrun1]; exact hsave, ?_, ?_⟩
  · rw [hrun1]
    unfold save_query_pattern
    simp
  · rw [hrun1]
    set store1 := save_query_pattern none store sql stats (extract_table_references sql)
      true none uid with hstore1
    have hmiss2 : ∀ r ∈ store1.query_cache,
        r.query_hash = generate_query_hash sql none → r.expires_at < t2 := by
      intro r hr hhash
      rw [hstore1] at hr
      rw [hsave] at hr
      exact Nat.lt_of_lt_of_le (hmiss r hr hhash) ht
    unfold query_tool_handler
    rw [show (if true && true then get_cached_query none store1 t2 sql
        else (none, store1)) = get_cached_query none store1 t2 sql by simp,
      get_cached_query_miss store1 t2 sql hmiss2]
    simp [hnot]

/-- C9 witness: executing `select 1` with an empty result on the empty store
adds no cache entry. -/
theorem C9_witness :
    (0 ≤ 1) ∧
    (query_tool_handler none none emptyStore 0 "select 1" true true [] [] none).2.query_cache =
      emptyStore.query_cache :=
  ⟨by decide,
   (C9_zero_rows_never_cached emptyStore 0 1 "select 1" [] [] none none []
      (by decide) (by decide) (by decide)).2.1⟩

/--
C10: a referenced table path with fewer than two dot-separated parts (a bare
table name) contributes no TableDependency row: when every reference in `L`
is bare, the dependency table is unchanged by the insert (conjuncts 1 and 2),
the entry itself is still cached (conjunct 3), and no later
`invalidate(p, d, t)` for any triple ever touches the new entry — it stays in
the cache with its original expiry (conjunct 4).
-/
theorem C10_bare_refs_never_invalidated (store : Store) (now : Nat) (sql : String)
    (rd : ResultData) (md : Metadata) (L : List String) (ttl : Nat)
    (hwf : store.WF)
    (hbare : ∀ tp ∈ L, (pySplitDot tp).length < 2) :
    depsFor store.next_id md L = [] ∧
    (cache_query_result none store now sql rd md L ttl).2.table_dependencies =
      store.table_dependencies ∧
    insertedRow store now sql rd md ttl ∈
      (cache_query_result none store now sql rd md L ttl).2.query_cache ∧
    (∀ (p d t : String) (later : Nat),
      insertedRow store now sql rd md ttl ∈
        (invalidate_cache_for_table none
          ((cache_query_result none store now sql rd md L ttl).2) later p d t).query_cache) := by
  have hdeps : depsFor store.next_id md L = [] := by
    unfold depsFor
    refine List.filterMap_eq_nil_iff.mpr (fun tp htp => ?_)
    simp [Nat.not_le.mpr (hbare tp htp)]
  refine ⟨hdeps, ?_, ?_, ?_⟩
  · rw [cache_query_result_spec]
    simp [hdeps]
  · rw [cache_query_result_spec]
    simp
  · intro p d t later
    rw [invalidate_eq_map]
    simp only [cache_query_result_spec]
    refine List.mem_map.mpr ⟨insertedRow store now sql rd md ttl, by simp, ?_⟩
    dsimp only
    have hcond : ¬ (decide ((insertedRow store now sql rd md ttl).id ∈
        (((store.table_dependencies ++ depsFor store.next_id md L).filter
          (depMatches p d t)).map (fun dep => dep.query_cache_id))) = true) := by
      simp only [decide_eq_true_eq, hdeps, List.append_nil]
      intro hmem
      obtain ⟨dep, hdmem, hdid⟩ := List.mem_map.mp hmem
      have h2 := hwf.2 dep (List.mem_filter.mp hdmem).1
      simp only [insertedRow] at hdid
      omega
    exact if_neg hcond

/-- C10 witness: caching a query referencing only the bare name `orders`
writes no dependency row. -/
theorem C10_witness :
    emptyStore.WF ∧
    (cache_query_result none emptyStore 0 "select 1" [] [] ["orders"] 1).2.table_dependencies =
      emptyStore.table_dependencies :=
  ⟨by decide,
   (C10_bare_refs_never_invalidated emptyStore 0 "select 1" [] [] ["orders"] 1
      (by decide) (by decide)).2.1⟩

end MCPBigQuery

